import Mathlib

/-!
Verification of the bank-reconciliation system (NFe/statement matching).

Shallow embedding of the Python sources:
  * `agente_llm_groq.py`  — hybrid deterministic/heuristic matching engine
  * `detector_anomalias.py` — anomaly detector (risk score, alert level,
    penalized-invoice mining)
  * `bank_statement_processor.py` — CSV statement row parser
  * `nfe_processor.py` — invoice operation-type extraction

Monetary values are modelled as rationals (`Rat`); Python floats such as the
literal `0.01` are modelled by the exact rationals they denote.  Scores are
integers.  The inference API (LLM) is modelled as an oracle parameter: a
function from the candidate pool to an optional parsed JSON reply; `none`
models both call failure after all retries and JSON-parse failure, which the
source treats identically (both reach the same fallback dictionary).
-/

/-! ### String helpers (Python semantics) -/

/-- Python `needle in hay` (substring containment): `p` is a prefix of `s`. -/
def isPrefixChars : List Char → List Char → Bool
  | [], _ => true
  | _ :: _, [] => false
  | a :: as, b :: bs => a == b && isPrefixChars as bs

/-- Substring search over the character list of the haystack. -/
def containsChars (needle : List Char) : List Char → Bool
  | [] => isPrefixChars needle []
  | b :: rest => isPrefixChars needle (b :: rest) || containsChars needle rest

/-- Python `needle in hay` for strings. -/
def containsStr (hay needle : String) : Bool :=
  containsChars needle.toList hay.toList

/-- Python `c in s` for a single character. -/
def containsChar (s : String) (c : Char) : Bool :=
  s.toList.contains c

/-- Strip leading/trailing whitespace (Python `str.strip()`). -/
def trimChars (cs : List Char) : List Char :=
  ((cs.dropWhile Char.isWhitespace).reverse.dropWhile Char.isWhitespace).reverse

/-- Python `str.strip()`. -/
def trimStr (s : String) : String :=
  String.mk (trimChars s.toList)

/-- Python `str.upper()` (ASCII, which covers every label compared here). -/
def toUpperStr (s : String) : String :=
  String.mk (s.toList.map Char.toUpper)

/-- If `pat` is a prefix of the list, return the remainder. -/
def stripPrefixChars : List Char → List Char → Option (List Char)
  | [], cs => some cs
  | _ :: _, [] => none
  | p :: ps, c :: cs => if p == c then stripPrefixChars ps cs else none

/-- Fuel-driven body of `replaceStr` (fuel bounds the scan; each step
consumes at least one character). -/
def replaceFuel (pat repl : List Char) : Nat → List Char → List Char
  | 0, cs => cs
  | _ + 1, [] => []
  | fuel + 1, c :: rest =>
    match stripPrefixChars pat (c :: rest) with
    | some rem => repl ++ replaceFuel pat repl fuel rem
    | none => c :: replaceFuel pat repl fuel rest

/-- Python `s.replace(pat, repl)` (non-overlapping, left to right); for an
empty pattern it returns `s` unchanged, like `String.replace` — no call
site uses an empty pattern. -/
def replaceStr (s pat repl : String) : String :=
  if pat.toList.isEmpty then s
  else String.mk (replaceFuel pat.toList repl.toList s.toList.length s.toList)

/-- Python `abs` on a rational. -/
def ratAbs (q : Rat) : Rat := if q < 0 then -q else q

/-! Rational arithmetic written through `mkRat` so that concrete runs reduce
inside the kernel; `ratSub_eq` and `ratMul_eq` below prove these equal to
the field operations of `Rat`. -/

/-- Rational subtraction (equal to `a - b`, see `ratSub_eq`). -/
def ratSub (a b : Rat) : Rat :=
  mkRat (a.num * (b.den : Int) - b.num * (a.den : Int)) (a.den * b.den)

/-- Rational multiplication (equal to `a * b`, see `ratMul_eq`). -/
def ratMul (a b : Rat) : Rat :=
  mkRat (a.num * b.num) (a.den * b.den)

/-- Python `str.zfill(width)`: left-pad with `0` to `width`, keeping a sign. -/
def zfill (s : String) (width : Nat) : String :=
  if width ≤ s.length then s
  else
    match s.toList with
    | c :: rest =>
      if c == '+' || c == '-' then
        String.mk (c :: (List.replicate (width - s.length) '0' ++ rest))
      else String.mk (List.replicate (width - s.length) '0' ++ s.toList)
    | [] => String.mk (List.replicate width '0')

/-- Python `f"TRANS_{linha:04d}"` zero-padding for a row number. -/
def pad4 (n : Nat) : String := zfill (toString n) 4

/-- Value of a digit character. -/
def digitVal (c : Char) : Nat := c.toNat - ('0').toNat

/-- Natural number denoted by a digit list (most-significant first). -/
def natOfDigits (cs : List Char) : Nat :=
  cs.foldl (fun acc c => acc * 10 + digitVal c) 0

/-- Unsigned decimal parse: `digits`, `digits.digits`, `digits.` or `.digits`.
Models the decimal forms accepted by Python `float()`; the exotic forms
(exponents, `inf`, `nan`, underscores) are outside every input exercised
here and are not modelled. -/
def parseUnsigned (cs : List Char) : Option Rat :=
  let intPart := cs.takeWhile Char.isDigit
  let rest := cs.dropWhile Char.isDigit
  match rest with
  | [] => if intPart.isEmpty then none else some (mkRat (Int.ofNat (natOfDigits intPart)) 1)
  | '.' :: frac =>
    if frac.all Char.isDigit && !(intPart.isEmpty && frac.isEmpty) then
      some (mkRat (Int.ofNat (natOfDigits intPart * 10 ^ frac.length + natOfDigits frac))
        (10 ^ frac.length))
    else none
  | _ => none

/-- Python `float(s)` on a decimal string, `none` on failure. -/
def parseFloat (s : String) : Option Rat :=
  match (trimStr s).toList with
  | '-' :: rest => (parseUnsigned rest).map (fun q => -q)
  | '+' :: rest => parseUnsigned rest
  | cs => parseUnsigned cs

/-! ### Data model

Invoice and transaction records as produced by the parsers and consumed by
the matching engine.  `rotulo_extrato_original` is optional because the
engine reads it with `dict.get` and a fallback default. -/

structure NFe where
  numero : String
  tipo_operacao : String
  valor_total : Rat
  data_emissao : String
  deriving Repr, DecidableEq

structure Transacao where
  id : String
  data : String
  tipo : String
  rotulo_extrato_original : Option String
  valor : Rat
  descricao : String
  documento : String
  saldo : Rat
  deriving Repr, DecidableEq

/-! ### `agente_llm_groq.py` — type/label penalty -/

/-- The raw-label/normalized-kind contradiction test, as written twice in the
source (`_aplicar_penalidade_tipo` and `_matching_individual`):
`('DEBITO' in tipo and 'CREDITO' in rotulo) or ('CREDITO' in tipo and 'DEBITO' in rotulo)`. -/
def inconsistencia_rotulo (tipo_normalizado rotulo_bruto : String) : Bool :=
  (containsStr tipo_normalizado ("DEBITO") && containsStr rotulo_bruto ("CREDITO")) ||
  (containsStr tipo_normalizado ("CREDITO") && containsStr rotulo_bruto ("DEBITO"))

/-- `AgenteConcialiadorLLM._aplicar_penalidade_tipo`. -/
def aplicar_penalidade_tipo (nfe : NFe) (trans : Transacao) (score : Int) : Int × String :=
  let tipo_nfe := toUpperStr nfe.tipo_operacao
  let tipo_normalizado := toUpperStr trans.tipo
  let rotulo_bruto := toUpperStr (trans.rotulo_extrato_original.getD tipo_normalizado)
  if inconsistencia_rotulo tipo_normalizado rotulo_bruto then
    (0, "INCOMPATIBILIDADE CRÍTICA DE DADOS: O fluxo de caixa (Valor " ++ tipo_normalizado ++
      ") não corresponde ao rótulo original do extrato (\x27" ++ rotulo_bruto ++
      "\x27). Match descartado.")
  else
    let incompativel_entrada := tipo_nfe == "ENTRADA" && tipo_normalizado != "DEBITO"
    let incompativel_saida := tipo_nfe == "SAIDA" && tipo_normalizado != "CREDITO"
    if incompativel_entrada || incompativel_saida then
      (min score 30, "Tipo de operação CRITICAMENTE INCOMPATÍVEL (" ++ tipo_nfe ++ " vs " ++
        tipo_normalizado ++ ").")
    else (score, "")

/-! ### Number rendering used in reasoning / anomaly strings

Python `f"{x:.2f}"` and `f"{x:,.2f}"`.  Exact for the values appearing in
the concrete runs below (whole cents); at the half-cent ties that no run
exercises, this rounds half up where CPython rounds half to even. -/

/-- Cents of a non-negative rational, rounded: `⌊a·100 + 1/2⌋`. -/
def roundCentsNat (a : Rat) : Nat :=
  (2 * (ratMul a 100).num + ((ratMul a 100).den : Int)).toNat / (2 * (ratMul a 100).den)

/-- Insert thousands separators into a reversed digit list (groups of 3). -/
def groupRev : List Char → List Char
  | a :: b :: c :: d :: rest => a :: b :: c :: ',' :: groupRev (d :: rest)
  | l => l

/-- Python `f"{q:.2f}"`. -/
def fmt2 (q : Rat) : String :=
  let c := roundCentsNat (ratAbs q)
  let ip := c / 100
  let fp := c % 100
  (if q < 0 then "-" else "") ++ toString ip ++ "." ++
    (if fp < 10 then "0" ++ toString fp else toString fp)

/-- Python `f"{q:,.2f}"` (thousands separators in the integer part). -/
def fmtMoney (q : Rat) : String :=
  let c := roundCentsNat (ratAbs q)
  let ip := c / 100
  let fp := c % 100
  let ipStr := String.mk ((groupRev (toString ip).toList.reverse).reverse)
  (if q < 0 then "-" else "") ++ ipStr ++ "." ++
    (if fp < 10 then "0" ++ toString fp else toString fp)

/-! ### `agente_llm_groq.py` — heuristic stage (deterministic part)

`_matching_heuristico` is LLM-backed; the inference call is modelled by an
oracle value of type `Option ParsedResult`: `some r` is a reply whose
embedded JSON parsed to `r` (the fields the prompt requests), `none` is the
case in which all retry attempts failed or no JSON could be parsed — both
reach the same fallback dictionary in the source. -/

structure ParsedResult where
  match_encontrado : Bool
  transacao_id : Option String
  score : Int
  raciocinio : String
  detalhes : Option (List (String × String)) := none
  deriving Repr, DecidableEq

/-- Result dictionary of `_matching_heuristico` / `_matching_individual`.
Optional fields model keys that some of the source's result dictionaries
lack (`transacao`, `motivo`, `detalhes`). -/
structure MatchResult where
  match_encontrado : Bool
  transacao_id : Option String
  transacao : Option Transacao := none
  score : Int
  raciocinio : String
  detalhes : List (String × String) := []
  motivo : Option String := none
  deriving Repr, DecidableEq

/-- Python truthiness of `resultado.get('transacao_id')`. -/
def idTruthy : Option String → Bool
  | none => false
  | some s => s != ""

/-- The deterministic tail of `_matching_heuristico`: JSON-result handling
and resolution of the chosen id against the candidate pool.  Note that when
resolution fails the source leaves `match_encontrado` untouched and simply
returns the parsed dictionary without a `transacao` key. -/
def matching_heuristico_post (reply : Option ParsedResult) (transacoes : List Transacao) :
    MatchResult :=
  match reply with
  | some resultado =>
    let trans_obj :=
      if resultado.match_encontrado && idTruthy resultado.transacao_id then
        transacoes.find? (fun t => t.id == resultado.transacao_id.getD (""))
      else none
    { match_encontrado := resultado.match_encontrado
      transacao_id := resultado.transacao_id
      transacao := trans_obj
      score := resultado.score
      raciocinio := resultado.raciocinio
      detalhes := resultado.detalhes.getD [] }
  | none =>
    { match_encontrado := false
      transacao_id := none
      score := 0
      raciocinio := "Falha na busca heurística (LLM/JSON error)." }

/-- Stage 2 + Stage 3 of `_matching_individual` (the code after the rigid
stage falls through or finds no target id). -/
def matching_fallback (reply : List Transacao → Option ParsedResult)
    (transacoes : List Transacao) (transacao_alvo_id : String) : MatchResult :=
  let resultado_heuristico := matching_heuristico_post (reply transacoes) transacoes
  if resultado_heuristico.match_encontrado then
    { resultado_heuristico with
        raciocinio := "Busca Heurística (Fallback) ativada. " ++ resultado_heuristico.raciocinio }
  else
    { match_encontrado := false
      transacao_id := none
      score := 0
      raciocinio := "Falha na conciliação: ID (" ++ transacao_alvo_id ++
        ") não encontrado e Busca Heurística não achou match > 50%." }

/-- `AgenteConcialiadorLLM._matching_individual`: hybrid two-stage matching.
The rigid label-inconsistency branch returns immediately (source lines
400–408); only value/type failures fall through to the heuristic stage. -/
def matching_individual (reply : List Transacao → Option ParsedResult)
    (nfe : NFe) (transacoes : List Transacao) : MatchResult :=
  let transacao_alvo_id := "TRANS_" ++ zfill nfe.numero 3
  match transacoes.find? (fun t => t.id == transacao_alvo_id) with
  | none => matching_fallback reply transacoes transacao_alvo_id
  | some transacao_rigida =>
    let nfe_valor := nfe.valor_total
    let trans_valor_abs := ratAbs transacao_rigida.valor
    let trans_tipo_normalizado := toUpperStr transacao_rigida.tipo
    let trans_rotulo_bruto :=
      toUpperStr (transacao_rigida.rotulo_extrato_original.getD trans_tipo_normalizado)
    let valor_diff := ratAbs (ratSub nfe_valor trans_valor_abs)
    let tolerancia_max := ratMul nfe_valor (mkRat 1 100)
    if inconsistencia_rotulo trans_tipo_normalizado trans_rotulo_bruto then
      { match_encontrado := false
        transacao_id := some transacao_alvo_id
        score := 0
        raciocinio := "Busca Rígida (ID 1:1) REJEITADA. INCOMPATIBILIDADE CRÍTICA DE DADOS (Rótulo Bruto "
          ++ trans_rotulo_bruto ++ " vs. Sinal " ++ trans_tipo_normalizado ++ ")."
        motivo := some ("Inconsistência de Rótulo Bruto") }
    else
      let tipo_nfe := toUpperStr nfe.tipo_operacao
      let is_type_match :=
        (tipo_nfe == "ENTRADA" && trans_tipo_normalizado == "DEBITO") ||
        (tipo_nfe == "SAIDA" && trans_tipo_normalizado == "CREDITO")
      if valor_diff ≤ tolerancia_max && is_type_match then
        { match_encontrado := true
          transacao_id := some transacao_alvo_id
          transacao := some transacao_rigida
          score := 100
          raciocinio := "Busca Rígida (ID 1:1) CONFIRMADA pelo Python. Valor: " ++ fmt2 nfe_valor
            ++ " | Diff: " ++ fmt2 valor_diff ++ " (Tolerância Máx: " ++ fmt2 tolerancia_max ++ ")." }
      else matching_fallback reply transacoes transacao_alvo_id

/-! ### `agente_llm_groq.py` — top-level run (`_fazer_matching_com_llm`) -/

structure MatchEntry where
  nfe : NFe
  transacao : Transacao
  score : Int
  raciocinio_llm : String
  detalhes : List (String × String)
  deriving Repr, DecidableEq

structure SemMatchEntry where
  nfe : NFe
  motivo : String
  raciocinio : String
  deriving Repr, DecidableEq

structure RunResult where
  matches_confirmados : List MatchEntry
  sugestoes : List MatchEntry
  sem_match : List SemMatchEntry
  total_nfes : Nat
  total_transacoes : Nat
  total_matches : Nat
  total_sugestoes : Nat
  total_sem_match : Nat
  deriving Repr, DecidableEq

/-- The per-invoice loop of `_fazer_matching_com_llm`, with the three output
lists and the consumed-id set (`transacoes_usadas`, a set modelled as a
list queried by membership) as accumulators.  A found match lacking the
`transacao` key makes the source raise `KeyError` at
`resultado['transacao']`; that uncaught exception is modelled as
`Except.error`. -/
def matching_loop (oracle : NFe → List Transacao → Option ParsedResult)
    (transacoes : List Transacao) :
    List NFe → List MatchEntry → List MatchEntry → List SemMatchEntry → List String →
    Except String (List MatchEntry × List MatchEntry × List SemMatchEntry)
  | [], matches_confirmados, sugestoes, sem_match, _ =>
    Except.ok (matches_confirmados, sugestoes, sem_match)
  | nfe :: rest, matches_confirmados, sugestoes, sem_match, transacoes_usadas =>
    let trans_disponiveis := transacoes.filter (fun t => !(transacoes_usadas.contains t.id))
    if trans_disponiveis.isEmpty then
      matching_loop oracle transacoes rest matches_confirmados sugestoes
        (sem_match ++ [{ nfe := nfe, motivo := "Sem transações disponíveis",
                         raciocinio := "Todas já foram usadas" }]) transacoes_usadas
    else
      let resultado := matching_individual (oracle nfe) nfe trans_disponiveis
      if resultado.match_encontrado then
        match resultado.transacao with
        | none => Except.error ("KeyError: \x27transacao\x27")
        | some trans_escolhida =>
          let pen := aplicar_penalidade_tipo nfe trans_escolhida resultado.score
          let score := pen.1
          let raciocinio :=
            if score ≠ resultado.score then
              resultado.raciocinio ++ " [PENALIDADE: " ++ pen.2 ++ "]"
            else resultado.raciocinio
          let m : MatchEntry :=
            { nfe := nfe, transacao := trans_escolhida, score := score,
              raciocinio_llm := raciocinio, detalhes := resultado.detalhes }
          if 70 ≤ score then
            matching_loop oracle transacoes rest (matches_confirmados ++ [m]) sugestoes sem_match
              (transacoes_usadas ++ [trans_escolhida.id])
          else if 50 ≤ score then
            matching_loop oracle transacoes rest matches_confirmados (sugestoes ++ [m]) sem_match
              (transacoes_usadas ++ [trans_escolhida.id])
          else
            matching_loop oracle transacoes rest matches_confirmados sugestoes
              (sem_match ++ [{ nfe := nfe, motivo := "Score insuficiente (abaixo de 50%)",
                               raciocinio := raciocinio }]) transacoes_usadas
      else
        matching_loop oracle transacoes rest matches_confirmados sugestoes
          (sem_match ++ [{ nfe := nfe, motivo := resultado.motivo.getD ("Sem match"),
                           raciocinio := resultado.raciocinio }]) transacoes_usadas

/-- `AgenteConcialiadorLLM._fazer_matching_com_llm`: runs the loop on empty
accumulators and packages the output bundle with its totals. -/
def fazer_matching_com_llm (oracle : NFe → List Transacao → Option ParsedResult)
    (nfes : List NFe) (transacoes : List Transacao) : Except String RunResult :=
  (matching_loop oracle transacoes nfes [] [] [] []).map (fun out =>
    { matches_confirmados := out.1
      sugestoes := out.2.1
      sem_match := out.2.2
      total_nfes := nfes.length
      total_transacoes := transacoes.length
      total_matches := out.1.length
      total_sugestoes := out.2.1.length
      total_sem_match := out.2.2.length })

/-! ### `detector_anomalias.py` -/

/-- One anomaly record (fields used by `_detectar_nfes_penalizadas`). -/
structure Anomalia where
  tipo : String
  nfe : String
  valor : Rat
  severidade : String
  descricao : String
  deriving Repr, DecidableEq

/-- `DetectorAnomalias._detectar_nfes_penalizadas`: mines the unmatched
entries' reasoning trails for the two critical-penalty markers. -/
def detectar_nfes_penalizadas (nfes_sem_match_llm : List SemMatchEntry) : List Anomalia :=
  nfes_sem_match_llm.filterMap (fun item =>
    let raciocinio := item.raciocinio
    if containsStr raciocinio ("CRITICAMENTE INCOMPATÍVEL") ||
       containsStr raciocinio ("INCONSISTÊNCIA DE DADOS CRÍTICA") then
      let nfe := item.nfe
      let motivo_completo :=
        if containsStr raciocinio ("CRITICAMENTE INCOMPATÍVEL") then "Tipo/Sinal Incompatível"
        else "Rótulo de Extrato Falso"
      some { tipo := "NFE_REJEITADA_TIPO_ERRADO"
             nfe := nfe.numero
             valor := nfe.valor_total
             severidade := "CRITICA"
             descricao := "NFe " ++ nfe.numero ++ " (R$ " ++ fmtMoney nfe.valor_total ++
               ") rejeitada. Causa: " ++ motivo_completo ++ "." }
    else none)

/-- The five anomaly-category lists of the detector's report; the risk-score
computation reads only their lengths. -/
structure Anomalias where
  valores_atipicos : List Anomalia
  temporal : List Anomalia
  sem_match_suspeito : List Anomalia
  duplicatas_potenciais : List Anomalia
  inconsistencias : List Anomalia
  deriving Repr, DecidableEq

/-- `DetectorAnomalias._calcular_score_risco`. -/
def calcular_score_risco (anomalias : Anomalias) : Nat :=
  let score := 0
  let score := score + anomalias.valores_atipicos.length * 2
  let score := score + anomalias.temporal.length * 3
  let score := score + anomalias.inconsistencias.length * 4
  let score := score + anomalias.sem_match_suspeito.length * 5
  let score := score + anomalias.duplicatas_potenciais.length * 10
  min score 100

/-- `DetectorAnomalias._determinar_nivel_alerta`. -/
def determinar_nivel_alerta (score : Nat) : String :=
  if 40 ≤ score then "CRITICO"
  else if 25 ≤ score then "ALTO"
  else if 10 ≤ score then "MEDIO"
  else "BAIXO"

/-! ### `bank_statement_processor.py` — CSV row -/

/-- Normalized flow kind from the sign of the parsed value, as written
inline in `_processar_linha_csv` (and again in `_normalizar_transacao_ofx`):
`DEBITO` negative, `CREDITO` positive, `INDEFINIDO` zero. -/
def tipo_por_sinal (valor : Rat) : String :=
  if valor < 0 then "DEBITO" else if 0 < valor then "CREDITO" else "INDEFINIDO"

/-- A CSV row, header-keyed (`csv.DictReader` row). -/
abbrev Row := List (String × String)

/-- Python `row.get(k)`. -/
def rowGet (row : Row) (k : String) : Option String :=
  (row.find? (fun p => p.1 == k)).map (fun p => p.2)

/-- Python `a or b or ... or default` over `row.get` results: first value
that is present and non-empty wins (empty strings are falsy). -/
def orChain : List (Option String) → String → String
  | [], dflt => dflt
  | some s :: rest, dflt => if s == "" then orChain rest dflt else s
  | none :: rest, dflt => orChain rest dflt

/-- `BankStatementProcessor._processar_linha_csv` (1-based row number `linha`). -/
def processar_linha_csv (row : Row) (linha : Nat) : Transacao :=
  let trans_id := orChain [rowGet row ("id"), rowGet row ("ID"), rowGet row ("trans_id"),
    rowGet row ("transacao_id")] ("TRANS_" ++ pad4 linha)
  let data := orChain [rowGet row ("data"), rowGet row ("Data"), rowGet row ("data_trans"),
    rowGet row ("date")] ("")
  let rotulo_bruto := toUpperStr (trimStr (orChain [rowGet row ("tipo"), rowGet row ("Tipo"),
    rowGet row ("tipo_trans"), rowGet row ("type")] ("N/A")))
  let valor_str0 := orChain [rowGet row ("valor"), rowGet row ("Valor"), rowGet row ("value"),
    rowGet row ("amount")] ("0")
  let valor_str1 := trimStr (replaceStr valor_str0 ("R$") (""))
  let valor_str :=
    if containsChar valor_str1 ',' then replaceStr (replaceStr valor_str1 (".") ("")) (",") (".")
    else valor_str1
  let valor := (parseFloat valor_str).getD 0
  let tipo_normalizado := tipo_por_sinal valor
  let tipo_final := tipo_normalizado
  let descricao := orChain [rowGet row ("descricao"), rowGet row ("Descricao"),
    rowGet row ("description"), rowGet row ("memo")] ("")
  let documento := orChain [rowGet row ("documento"), rowGet row ("Documento"),
    rowGet row ("cnpj"), rowGet row ("cpf")] ("")
  let saldo := (parseFloat ((rowGet row ("saldo")).getD ("0"))).getD 0
  { id := trimStr trans_id
    data := trimStr data
    tipo := tipo_final
    rotulo_extrato_original := some rotulo_bruto
    valor := valor
    descricao := trimStr descricao
    documento := trimStr documento
    saldo := saldo }

/-! ### `nfe_processor.py` — operation type -/

/-- `NFEProcessor._get_text` on an element: outer `Option` = element found,
inner `Option` = its `.text`; empty/absent text falls back to the default. -/
def get_text (elemText : Option (Option String)) (dflt : String) : String :=
  match elemText with
  | some (some t) => if t == "" then dflt else trimStr t
  | _ => dflt

/-- `'ENTRADA' if tpnf == '0' else 'SAIDA'`. -/
def tipo_operacao_de_tpnf (tpnf : String) : String :=
  if tpnf == "0" then "ENTRADA" else "SAIDA"

/-- Operation type in `_extrair_dados_nfe` (default source code `"0"`). -/
def extrair_tipo_operacao (ideTpNF : Option (Option String)) : String :=
  tipo_operacao_de_tpnf (get_text ideTpNF ("0"))

/-- Operation type in `_extrair_dados_nfe_simples` (same expression). -/
def extrair_tipo_operacao_simples (ideTpNF : Option (Option String)) : String :=
  tipo_operacao_de_tpnf (get_text ideTpNF ("0"))

/-! ### Spec-side classification (for the dashboard-threshold claim) -/

/-- Modelled from the spec: the classification that the dashboard threshold
controls (`threshold_confirmado`, `threshold_sugestao` in
`app_v1_com_llm.py`) are said to drive.  The source's
`fazer_conciliacao(nfes, transacoes)` accepts no thresholds and classifies
against the fixed constants 70/50; this definition exists only to state
that divergence. -/
def classificacao_spec (threshold_confirmado threshold_sugestao score : Int) : String :=
  if threshold_confirmado ≤ score then "confirmado"
  else if threshold_sugestao ≤ score then "sugestao"
  else "sem_match"

/-! ### Concrete fixtures for the theorems below -/

/-- Oracle for runs in which the heuristic stage's reply never parses (or
every inference attempt fails). -/
def oracleNone : NFe → List Transacao → Option ParsedResult := fun _ _ => none

def nfeC1 : NFe :=
  { numero := "1", tipo_operacao := "SAIDA", valor_total := 100, data_emissao := "2024-01-10" }

def tC1 : Transacao :=
  { id := "TX_1", data := "2024-01-11", tipo := "CREDITO",
    rotulo_extrato_original := some ("CREDITO"), valor := 100,
    descricao := "", documento := "", saldo := 0 }

/-- Oracle whose reply names `TX_1` with score 75. -/
def oracle75 : NFe → List Transacao → Option ParsedResult := fun _ _ =>
  some { match_encontrado := true, transacao_id := some ("TX_1"), score := 75,
         raciocinio := "Melhor score heurístico encontrado." }

def mC1 : MatchEntry :=
  { nfe := nfeC1, transacao := tC1, score := 75,
    raciocinio_llm := "Busca Heurística (Fallback) ativada. Melhor score heurístico encontrado.",
    detalhes := [] }

def rC1 : RunResult :=
  { matches_confirmados := [mC1], sugestoes := [], sem_match := [],
    total_nfes := 1, total_transacoes := 1,
    total_matches := 1, total_sugestoes := 0, total_sem_match := 0 }

/-- Second invoice for a two-invoice run that exhausts the candidate pool. -/
def nfeC10 : NFe :=
  { numero := "9", tipo_operacao := "SAIDA", valor_total := 100, data_emissao := "2024-01-10" }

def semC10 : SemMatchEntry :=
  { nfe := nfeC10, motivo := "Sem transações disponíveis", raciocinio := "Todas já foram usadas" }

def rC10 : RunResult :=
  { matches_confirmados := [mC1], sugestoes := [], sem_match := [semC10],
    total_nfes := 2, total_transacoes := 1,
    total_matches := 1, total_sugestoes := 0, total_sem_match := 1 }

/-- Invoice whose rigid target id `TRANS_007` exists with a contradictory
raw label (normalized outflow, raw label `CREDITO`). -/
def nfeL : NFe :=
  { numero := "7", tipo_operacao := "ENTRADA", valor_total := 1000, data_emissao := "2024-01-10" }

def tL : Transacao :=
  { id := "TRANS_007", data := "2024-01-11", tipo := "DEBITO",
    rotulo_extrato_original := some ("CREDITO"), valor := -1000,
    descricao := "", documento := "", saldo := 0 }

/-- Oracle that, were the heuristic stage consulted, would return a
resolvable 95-score match on `TRANS_007`. -/
def oracleRigido95 : NFe → List Transacao → Option ParsedResult := fun _ _ =>
  some { match_encontrado := true, transacao_id := some ("TRANS_007"), score := 95,
         raciocinio := "Valor exato encontrado." }

/-- The rejection record produced by the rigid stage on `nfeL`/`tL`. -/
def rejeicaoL : MatchResult :=
  { match_encontrado := false, transacao_id := some ("TRANS_007"), transacao := none,
    score := 0,
    raciocinio := "Busca Rígida (ID 1:1) REJEITADA. INCOMPATIBILIDADE CRÍTICA DE DADOS (Rótulo Bruto CREDITO vs. Sinal DEBITO).",
    detalhes := [], motivo := some ("Inconsistência de Rótulo Bruto") }

/-- The unmatched entry that a run over `nfeL`/`tL` records. -/
def semL : SemMatchEntry :=
  { nfe := nfeL, motivo := "Inconsistência de Rótulo Bruto",
    raciocinio := "Busca Rígida (ID 1:1) REJEITADA. INCOMPATIBILIDADE CRÍTICA DE DADOS (Rótulo Bruto CREDITO vs. Sinal DEBITO)." }

/-- Parsed heuristic reply naming a transaction id absent from the pool. -/
def parsedBad : ParsedResult :=
  { match_encontrado := true, transacao_id := some ("TRANS_999"), score := 85,
    raciocinio := "Melhor score heurístico encontrado." }

def oracleBad : NFe → List Transacao → Option ParsedResult := fun _ _ => some parsedBad

def nfeC4 : NFe :=
  { numero := "4", tipo_operacao := "SAIDA", valor_total := 100, data_emissao := "2024-01-10" }

def tC4 : Transacao :=
  { id := "TRANS_010", data := "2024-01-11", tipo := "CREDITO",
    rotulo_extrato_original := some ("CREDITO"), valor := 100,
    descricao := "", documento := "", saldo := 0 }

/-- The fallback dictionary of the heuristic stage when no JSON parses. -/
def heurFalha : MatchResult :=
  { match_encontrado := false, transacao_id := none, score := 0,
    raciocinio := "Falha na busca heurística (LLM/JSON error)." }

/-- ENTRADA invoice paired (by the oracle) with an inflow transaction:
takes the min-30 type penalty. -/
def nfeT : NFe :=
  { numero := "2", tipo_operacao := "ENTRADA", valor_total := 100, data_emissao := "2024-01-10" }

def tT : Transacao :=
  { id := "TX_2", data := "2024-01-11", tipo := "CREDITO",
    rotulo_extrato_original := some ("CREDITO"), valor := 100,
    descricao := "", documento := "", saldo := 0 }

def oracle85 : NFe → List Transacao → Option ParsedResult := fun _ _ =>
  some { match_encontrado := true, transacao_id := some ("TX_2"), score := 85,
         raciocinio := "Melhor score heurístico encontrado." }

/-- The anomaly emitted for the penalized `nfeT` entry. -/
def anomT : Anomalia :=
  { tipo := "NFE_REJEITADA_TIPO_ERRADO", nfe := "2", valor := 100, severidade := "CRITICA",
    descricao := "NFe 2 (R$ 100.00) rejeitada. Causa: Tipo/Sinal Incompatível." }

/-- SAIDA invoice compatible with `tT` (no penalty). -/
def nfeS : NFe :=
  { numero := "3", tipo_operacao := "SAIDA", valor_total := 100, data_emissao := "2024-01-10" }

/-- Anomaly records for the risk-score example (content irrelevant to the
score, which reads only list lengths). -/
def anomEx1 : Anomalia :=
  { tipo := "VALOR_MUITO_ALTO", nfe := "1", valor := 0, severidade := "ALTA", descricao := "" }

def anomEx2 : Anomalia :=
  { tipo := "TRANSACAO_ANTES_NFE", nfe := "1", valor := 0, severidade := "ALTA", descricao := "" }

def anomEx3 : Anomalia :=
  { tipo := "DIFERENCA_TEMPORAL_GRANDE", nfe := "2", valor := 0, severidade := "MEDIA", descricao := "" }

def anomEx4 : Anomalia :=
  { tipo := "NFE_ALTO_VALOR_SEM_MATCH", nfe := "3", valor := 0, severidade := "ALTA", descricao := "" }

/-- 1 outlier, 2 temporal, 0 inconsistencies, 1 suspicious-unmatched,
0 duplicates. -/
def anomaliasEx : Anomalias :=
  { valores_atipicos := [anomEx1], temporal := [anomEx2, anomEx3],
    sem_match_suspeito := [anomEx4], duplicatas_potenciais := [], inconsistencias := [] }

/-- CSV rows for the value-normalization claim. -/
def linhaBR : Row := [(("valor"), ("1.234,56"))]

def linhaUS : Row := [(("valor"), ("-2500.00"))]

def linhaRuim : Row := [(("valor"), ("abc"))]

/-! ### Helper lemmas -/

/-- `ratSub` is subtraction on `ℚ`. -/
theorem ratSub_eq (a b : Rat) : ratSub a b = a - b := by
  have ha : ((a.den : ℚ)) ≠ 0 := Nat.cast_ne_zero.mpr a.den_nz
  have hb : ((b.den : ℚ)) ≠ 0 := Nat.cast_ne_zero.mpr b.den_nz
  rw [ratSub, Rat.mkRat_eq_div]
  conv_rhs => rw [← Rat.num_div_den a, ← Rat.num_div_den b, div_sub_div _ _ ha hb]
  push_cast
  ring_nf

/-- `ratMul` is multiplication on `ℚ`. -/
theorem ratMul_eq (a b : Rat) : ratMul a b = a * b := by
  rw [ratMul, Rat.mkRat_eq_div]
  conv_rhs => rw [← Rat.num_div_den a, ← Rat.num_div_den b, div_mul_div_comm]
  push_cast
  ring_nf

/-- `ratAbs` is `|·|` on `ℚ`. -/
theorem ratAbs_eq (q : Rat) : ratAbs q = |q| := by
  rw [ratAbs]
  split_ifs with h
  · exact (abs_of_neg h).symm
  · exact (abs_of_nonneg (not_lt.mp h)).symm

/-- `List.contains` agrees with membership on `String` lists. -/
theorem contains_iff_mem_str (l : List String) (a : String) :
    l.contains a = true ↔ a ∈ l := by
  simp [List.contains, List.elem_iff]

/-- Inserting a fresh element anywhere in a `Nodup` list keeps it `Nodup`. -/
theorem nodup_insert_middle {β : Type _} (x : β) (A B : List β)
    (hnd : (A ++ B).Nodup) (hx : x ∉ A ++ B) : (A ++ x :: B).Nodup := by
  rw [List.nodup_middle]
  exact List.nodup_cons.mpr ⟨hx, hnd⟩

/-- A transaction object attached by the heuristic stage always comes from
the candidate pool handed to it. -/
theorem matching_heuristico_post_mem (reply : Option ParsedResult)
    (transacoes : List Transacao) (t : Transacao)
    (h : (matching_heuristico_post reply transacoes).transacao = some t) :
    t ∈ transacoes := by
  cases reply with
  | none => simp [matching_heuristico_post] at h
  | some resultado =>
    simp only [matching_heuristico_post] at h
    split at h
    · exact List.mem_of_find?_eq_some h
    · simp at h

/-- Same for the Stage-2/Stage-3 fallback. -/
theorem matching_fallback_mem (reply : List Transacao → Option ParsedResult)
    (transacoes : List Transacao) (alvo : String) (t : Transacao)
    (h : (matching_fallback reply transacoes alvo).transacao = some t) :
    t ∈ transacoes := by
  simp only [matching_fallback] at h
  split at h
  · exact matching_heuristico_post_mem _ _ _ h
  · simp at h

/-- Any transaction object returned by `_matching_individual` belongs to the
candidate pool it was given. -/
theorem matching_individual_mem (reply : List Transacao → Option ParsedResult)
    (nfe : NFe) (transacoes : List Transacao) (t : Transacao)
    (h : (matching_individual reply nfe transacoes).transacao = some t) :
    t ∈ transacoes := by
  simp only [matching_individual] at h
  split at h
  · exact matching_fallback_mem _ _ _ _ h
  · rename_i transacao_rigida hfind
    split at h
    · simp at h
    · split at h
      · simp only [Option.some.injEq] at h
        subst h
        exact List.mem_of_find?_eq_some hfind
      · exact matching_fallback_mem _ _ _ _ h

/-- Invariant of the per-invoice loop: if every transaction id already used
by the accumulated confirmed/suggestion entries is in `transacoes_usadas`
and those ids are distinct, the final confirmed/suggestion ids are
distinct.  Mirrors the source's `transacoes_usadas` set discipline. -/
theorem matching_loop_nodup (oracle : NFe → List Transacao → Option ParsedResult)
    (transacoes : List Transacao) :
    ∀ (nfes : List NFe) (ms ss : List MatchEntry) (us : List SemMatchEntry)
      (usadas : List String) (M S : List MatchEntry) (U : List SemMatchEntry),
    matching_loop oracle transacoes nfes ms ss us usadas = Except.ok (M, S, U) →
    (∀ m ∈ ms ++ ss, m.transacao.id ∈ usadas) →
    ((ms ++ ss).map (fun m => m.transacao.id)).Nodup →
    ((M ++ S).map (fun m => m.transacao.id)).Nodup := by
  intro nfes
  induction nfes with
  | nil =>
    intro ms ss us usadas M S U h hsub hnd
    simp only [matching_loop, Except.ok.injEq, Prod.mk.injEq] at h
    obtain ⟨hM, hS, _⟩ := h
    rw [← hM, ← hS]
    exact hnd
  | cons nfe rest ih =>
    intro ms ss us usadas M S U h hsub hnd
    simp only [matching_loop] at h
    split at h
    · exact ih _ _ _ _ _ _ _ h hsub hnd
    · split at h
      · split at h
        · simp at h
        · rename_i hEnc trans_escolhida h3
          have htmem : trans_escolhida ∈
              transacoes.filter (fun t => !(usadas.contains t.id)) :=
            matching_individual_mem _ _ _ _ h3
          have htfresh : trans_escolhida.id ∉ usadas := by
            have hf := (List.mem_filter.mp htmem).2
            intro hmem
            rw [(contains_iff_mem_str usadas trans_escolhida.id).mpr hmem] at hf
            simp at hf
          have hidnotin : trans_escolhida.id ∉ (ms ++ ss).map (fun m => m.transacao.id) := by
            intro hmem
            obtain ⟨m, hm, hmid⟩ := List.mem_map.mp hmem
            exact htfresh (hmid ▸ hsub m hm)
          split at h
          · refine ih _ _ _ _ _ _ _ h ?_ ?_
            · intro x hx
              rcases List.mem_append.mp hx with hx' | hx'
              · rcases List.mem_append.mp hx' with hx'' | hx''
                · exact List.mem_append_left _ (hsub x (List.mem_append_left _ hx''))
                · rw [List.mem_singleton.mp hx'']
                  exact List.mem_append_right _ (by simp)
              · exact List.mem_append_left _ (hsub x (List.mem_append_right _ hx'))
            · rw [show ∀ (mm : MatchEntry), (ms ++ [mm]) ++ ss = ms ++ mm :: ss
                from fun mm => by simp]
              rw [List.map_append, List.map_cons]
              refine nodup_insert_middle _ _ _ ?_ ?_
              · rw [← List.map_append]; exact hnd
              · rw [← List.map_append]; exact hidnotin
          · split at h
            · refine ih _ _ _ _ _ _ _ h ?_ ?_
              · intro x hx
                rcases List.mem_append.mp hx with hx' | hx'
                · exact List.mem_append_left _ (hsub x (List.mem_append_left _ hx'))
                · rcases List.mem_append.mp hx' with hx'' | hx''
                  · exact List.mem_append_left _ (hsub x (List.mem_append_right _ hx''))
                  · rw [List.mem_singleton.mp hx'']
                    exact List.mem_append_right _ (by simp)
              · rw [show ∀ (mm : MatchEntry), ms ++ (ss ++ [mm]) = (ms ++ ss) ++ mm :: []
                  from fun mm => by simp]
                rw [List.map_append, List.map_cons]
                refine nodup_insert_middle _ _ _ ?_ ?_
                · simpa using hnd
                · simpa using hidnotin
            · exact ih _ _ _ _ _ _ _ h hsub hnd
      · exact ih _ _ _ _ _ _ _ h hsub hnd

/-- Each loop iteration adds exactly one entry to exactly one of the three
output lists. -/
theorem matching_loop_len (oracle : NFe → List Transacao → Option ParsedResult)
    (transacoes : List Transacao) :
    ∀ (nfes : List NFe) (ms ss : List MatchEntry) (us : List SemMatchEntry)
      (usadas : List String) (M S : List MatchEntry) (U : List SemMatchEntry),
    matching_loop oracle transacoes nfes ms ss us usadas = Except.ok (M, S, U) →
    M.length + S.length + U.length = ms.length + ss.length + us.length + nfes.length := by
  intro nfes
  induction nfes with
  | nil =>
    intro ms ss us usadas M S U h
    simp only [matching_loop, Except.ok.injEq, Prod.mk.injEq] at h
    obtain ⟨hM, hS, hU⟩ := h
    rw [← hM, ← hS, ← hU]
    simp only [List.length_nil]
    omega
  | cons nfe rest ih =>
    intro ms ss us usadas M S U h
    simp only [matching_loop] at h
    split at h
    · have := ih _ _ _ _ _ _ _ h
      simp only [List.length_append, List.length_cons, List.length_nil] at this ⊢
      omega
    · split at h
      · split at h
        · simp at h
        · split at h
          · have := ih _ _ _ _ _ _ _ h
            simp only [List.length_append, List.length_cons, List.length_nil] at this ⊢
            omega
          · split at h
            · have := ih _ _ _ _ _ _ _ h
              simp only [List.length_append, List.length_cons, List.length_nil] at this ⊢
              omega
            · have := ih _ _ _ _ _ _ _ h
              simp only [List.length_append, List.length_cons, List.length_nil] at this ⊢
              omega
      · have := ih _ _ _ _ _ _ _ h
        simp only [List.length_append, List.length_cons, List.length_nil] at this ⊢
        omega

/-! ### Claim theorems -/

/-- C1: classification happens against the fixed constants 70/50 — a
75-score found match lands in the confirmed list — and the run procedure
(`fazer_matching_com_llm`, reached from `fazer_conciliacao(nfes,
transacoes)`) accepts no threshold parameters, while the spec-side
classification driven by the dashboard's configured confirmed-threshold of
90 would make a 75-score match only a suggestion. -/
theorem c1_classificacao_ignora_thresholds :
    fazer_matching_com_llm oracle75 [nfeC1] [tC1] = Except.ok rC1 ∧
    rC1.matches_confirmados.map (fun m => m.score) = [75] ∧
    rC1.sugestoes = [] ∧
    classificacao_spec 90 50 75 = "sugestao" :=
  ⟨by rfl, by decide, by decide, by decide⟩

/-- C2: transaction exclusivity — in every completed reconciliation run the
transaction ids across the confirmed-match and suggestion lists are
pairwise distinct; a consumed transaction is filtered out of every later
candidate pool and can never be chosen again. -/
theorem c2_exclusividade_transacoes
    (oracle : NFe → List Transacao → Option ParsedResult)
    (nfes : List NFe) (transacoes : List Transacao) (r : RunResult)
    (h : fazer_matching_com_llm oracle nfes transacoes = Except.ok r) :
    ((r.matches_confirmados ++ r.sugestoes).map (fun m => m.transacao.id)).Nodup := by
  rw [fazer_matching_com_llm] at h
  cases hml : matching_loop oracle transacoes nfes [] [] [] [] with
  | error e =>
    rw [hml] at h
    simp [Except.map] at h
  | ok out =>
    obtain ⟨A, B, C⟩ := out
    rw [hml] at h
    simp only [Except.map, Except.ok.injEq] at h
    have hnd := matching_loop_nodup oracle transacoes nfes [] [] [] [] A B C hml
      (by intro m hm; simp at hm) (by simp)
    rw [← h]
    simpa using hnd

/-- C2 witness: exclusivity applied to a concrete completed run. -/
theorem c2_exclusividade_transacoes_witness :
    ((rC1.matches_confirmados ++ rC1.sugestoes).map (fun m => m.transacao.id)).Nodup :=
  c2_exclusividade_transacoes oracle75 [nfeC1] [tC1] rC1 (by rfl)

/-- C3 counterexample: with the rigid candidate's raw label contradicting
its sign-derived kind, the procedure reports no match outright even though
the heuristic stage, had it been run over the same candidate pool, would
have produced a resolvable 95-score match — Stage 2 is not consulted for
that invoice. -/
theorem c3_counterexample_fallback_nao_roda :
    (matching_individual (oracleRigido95 nfeL) nfeL [tL]).match_encontrado = false ∧
    (matching_individual (oracleRigido95 nfeL) nfeL [tL]).score = 0 ∧
    (matching_individual (oracleRigido95 nfeL) nfeL [tL]).motivo
      = some ("Inconsistência de Rótulo Bruto") ∧
    (matching_heuristico_post (oracleRigido95 nfeL [tL]) [tL]).match_encontrado = true ∧
    (matching_heuristico_post (oracleRigido95 nfeL [tL]) [tL]).transacao = some tL := by
  decide

/-- C3 (amended): when the rigid-stage candidate exists and its raw label
contradicts its normalized kind, `_matching_individual` returns the
score-0 rejection immediately and identically for every oracle — the
Stage-2 heuristic fallback does not run for that invoice. -/
theorem c3_rejeicao_rotulo_retorna_imediatamente
    (reply : List Transacao → Option ParsedResult) (nfe : NFe)
    (transacoes : List Transacao) (t : Transacao)
    (hfind : transacoes.find? (fun tr => tr.id == "TRANS_" ++ zfill nfe.numero 3) = some t)
    (hinc : inconsistencia_rotulo (toUpperStr t.tipo)
      (toUpperStr (t.rotulo_extrato_original.getD (toUpperStr t.tipo))) = true) :
    matching_individual reply nfe transacoes =
      { match_encontrado := false
        transacao_id := some ("TRANS_" ++ zfill nfe.numero 3)
        transacao := none
        score := 0
        raciocinio := "Busca Rígida (ID 1:1) REJEITADA. INCOMPATIBILIDADE CRÍTICA DE DADOS (Rótulo Bruto "
          ++ toUpperStr (t.rotulo_extrato_original.getD (toUpperStr t.tipo)) ++ " vs. Sinal "
          ++ toUpperStr t.tipo ++ ")."
        detalhes := []
        motivo := some ("Inconsistência de Rótulo Bruto") } := by
  simp only [matching_individual, hfind]
  rw [if_pos hinc]

/-- C3 witness: the amended theorem at the concrete fixture. -/
theorem c3_rejeicao_rotulo_witness :
    matching_individual (oracleRigido95 nfeL) nfeL [tL] = rejeicaoL := by
  have h := c3_rejeicao_rotulo_retorna_imediatamente (oracleRigido95 nfeL) nfeL [tL] tL
    (by decide) (by decide)
  rw [h]
  decide

/-- C4: a parsed heuristic reply claiming a match on an id that does not
resolve against the pool is returned with its match flag still true and no
transaction object, and the surrounding run then aborts with a `KeyError`
instead of recording no match; only the JSON-parse-failure branch reports
no match as the claim states. -/
theorem c4_id_nao_resolvido_derruba_execucao :
    (matching_heuristico_post (some parsedBad) [tC4]).match_encontrado = true ∧
    (matching_heuristico_post (some parsedBad) [tC4]).transacao = none ∧
    fazer_matching_com_llm oracleBad [nfeC4] [tC4]
      = Except.error ("KeyError: \x27transacao\x27") ∧
    matching_heuristico_post none [tC4] = heurFalha :=
  ⟨by decide, by decide, by rfl, by decide⟩

/-- C5: characterization of `_aplicar_penalidade_tipo` — a raw-label/sign
contradiction forces the returned score to 0 and takes precedence; else a
flow-incompatible pairing (incoming with non-outflow, outgoing with
non-inflow) returns `min score 30`, hence never more than 30; otherwise
the score is unchanged. -/
theorem c5_penalidade_tipo (nfe : NFe) (trans : Transacao) (score : Int) :
    (inconsistencia_rotulo (toUpperStr trans.tipo)
        (toUpperStr (trans.rotulo_extrato_original.getD (toUpperStr trans.tipo))) = true →
      (aplicar_penalidade_tipo nfe trans score).1 = 0) ∧
    (inconsistencia_rotulo (toUpperStr trans.tipo)
        (toUpperStr (trans.rotulo_extrato_original.getD (toUpperStr trans.tipo))) = false →
      ((toUpperStr nfe.tipo_operacao == "ENTRADA" && toUpperStr trans.tipo != "DEBITO") ||
        (toUpperStr nfe.tipo_operacao == "SAIDA" && toUpperStr trans.tipo != "CREDITO")) = true →
      (aplicar_penalidade_tipo nfe trans score).1 = min score 30 ∧
        (aplicar_penalidade_tipo nfe trans score).1 ≤ 30) ∧
    (inconsistencia_rotulo (toUpperStr trans.tipo)
        (toUpperStr (trans.rotulo_extrato_original.getD (toUpperStr trans.tipo))) = false →
      ((toUpperStr nfe.tipo_operacao == "ENTRADA" && toUpperStr trans.tipo != "DEBITO") ||
        (toUpperStr nfe.tipo_operacao == "SAIDA" && toUpperStr trans.tipo != "CREDITO")) = false →
      (aplicar_penalidade_tipo nfe trans score).1 = score) := by
  refine ⟨?_, ?_, ?_⟩
  · intro h
    simp only [aplicar_penalidade_tipo]
    rw [if_pos h]
  · intro h1 h2
    simp only [aplicar_penalidade_tipo]
    rw [if_neg (by rw [h1]; exact Bool.false_ne_true)]
    rw [if_pos h2]
    exact ⟨rfl, min_le_right _ _⟩
  · intro h1 h2
    simp only [aplicar_penalidade_tipo]
    rw [if_neg (by rw [h1]; exact Bool.false_ne_true)]
    rw [if_neg (by rw [h2]; exact Bool.false_ne_true)]

/-- C5 witness: the three branches at concrete inputs. -/
theorem c5_penalidade_tipo_witness :
    (aplicar_penalidade_tipo nfeL tL 90).1 = 0 ∧
    ((aplicar_penalidade_tipo nfeT tT 85).1 = min 85 30 ∧
      (aplicar_penalidade_tipo nfeT tT 85).1 ≤ 30) ∧
    (aplicar_penalidade_tipo nfeS tT 85).1 = 85 :=
  ⟨(c5_penalidade_tipo nfeL tL 90).1 (by decide),
    (c5_penalidade_tipo nfeT tT 85).2.1 (by decide) (by decide),
    (c5_penalidade_tipo nfeS tT 85).2.2 (by decide) (by decide)⟩

/-- C6: the unmatched entry produced by a label-vs-sign rejection carries
the agent's critical-label marker "INCOMPATIBILIDADE CRÍTICA DE DADOS",
yet `_detectar_nfes_penalizadas` emits no anomaly for it, because it
searches for "INCONSISTÊNCIA DE DADOS CRÍTICA" — a string the agent never
writes — while the critical-type marker branch does fire and yields the
CRITICAL wrong-type anomaly. -/
theorem c6_marcador_rotulo_nao_detectado :
    (fazer_matching_com_llm oracleNone [nfeL] [tL]).map (fun r => r.sem_match)
      = Except.ok [semL] ∧
    containsStr semL.raciocinio ("INCOMPATIBILIDADE CRÍTICA DE DADOS") = true ∧
    containsStr semL.raciocinio ("INCONSISTÊNCIA DE DADOS CRÍTICA") = false ∧
    containsStr semL.raciocinio ("CRITICAMENTE INCOMPATÍVEL") = false ∧
    detectar_nfes_penalizadas [semL] = [] ∧
    (fazer_matching_com_llm oracle85 [nfeT] [tT]).map
      (fun r => detectar_nfes_penalizadas r.sem_match) = Except.ok [anomT] :=
  ⟨by rfl, by decide, by decide, by decide, by decide, by rfl⟩

/-- C7: the risk score is the 2/3/4/5/10-weighted sum of the five category
counts clipped at 100; the alert level is CRITICO exactly on scores ≥ 40,
ALTO on [25, 40), MEDIO on [10, 25), BAIXO below 10; and the example with
counts 1, 2, 0, 1, 0 scores 13, level MEDIO. -/
theorem c7_score_risco_e_nivel :
    (∀ a : Anomalias, calcular_score_risco a =
      min (2 * a.valores_atipicos.length + 3 * a.temporal.length +
        4 * a.inconsistencias.length + 5 * a.sem_match_suspeito.length +
        10 * a.duplicatas_potenciais.length) 100) ∧
    (∀ s : Nat,
      (determinar_nivel_alerta s = "CRITICO" ↔ 40 ≤ s) ∧
      (determinar_nivel_alerta s = "ALTO" ↔ 25 ≤ s ∧ s < 40) ∧
      (determinar_nivel_alerta s = "MEDIO" ↔ 10 ≤ s ∧ s < 25) ∧
      (determinar_nivel_alerta s = "BAIXO" ↔ s < 10)) ∧
    calcular_score_risco anomaliasEx = 13 ∧
    determinar_nivel_alerta (calcular_score_risco anomaliasEx) = "MEDIO" := by
  refine ⟨?_, ?_, by decide, by decide⟩
  · intro a
    simp only [calcular_score_risco]
    congr 1
    ring
  · intro s
    refine ⟨?_, ?_, ?_, ?_⟩ <;>
      (simp only [determinar_nivel_alerta]; split_ifs <;> simp_all <;> omega)

set_option maxHeartbeats 2000000 in
/-- C8: statement value parsing — the Brazilian-format string "1.234,56"
parses to 1234.56, "-2500.00" parses to −2500 with normalized kind DEBITO,
an unparsable value becomes 0.0 (kind INDEFINIDO), and for every row the
normalized kind is a pure function of the parsed value's sign. -/
theorem c8_parse_valor_e_tipo :
    (processar_linha_csv linhaBR 1).valor = (1234.56 : Rat) ∧
    (processar_linha_csv linhaUS 1).valor = (-2500 : Rat) ∧
    (processar_linha_csv linhaUS 1).tipo = "DEBITO" ∧
    (processar_linha_csv linhaRuim 1).valor = 0 ∧
    (processar_linha_csv linhaRuim 1).tipo = "INDEFINIDO" ∧
    (∀ (row : Row) (linha : Nat),
      (processar_linha_csv row linha).tipo =
        tipo_por_sinal (processar_linha_csv row linha).valor) ∧
    (∀ v : Rat, tipo_por_sinal v =
      (if v < 0 then "DEBITO" else if 0 < v then "CREDITO" else "INDEFINIDO")) := by
  refine ⟨?_, ?_, by decide, by decide, by decide, ?_, fun v => rfl⟩
  · have h : (processar_linha_csv linhaBR 1).valor = mkRat 123456 100 := by decide
    rw [h, Rat.mkRat_eq_div]
    norm_num
  · have h : (processar_linha_csv linhaUS 1).valor = mkRat (-2500) 1 := by decide
    rw [h, Rat.mkRat_eq_div]
    norm_num
  · intro row linha
    rfl

/-- C9: invoice operation-type mapping — the type is ENTRADA exactly when
the single-digit source code equals "0" and SAIDA otherwise, identically
in the full and reduced extraction paths, and an absent or empty source
element falls back to the default "0", yielding ENTRADA. -/
theorem c9_tipo_operacao_mapeamento :
    (∀ tpnf : String,
      (tipo_operacao_de_tpnf tpnf = "ENTRADA" ↔ tpnf = "0") ∧
      (tipo_operacao_de_tpnf tpnf = "SAIDA" ↔ ¬tpnf = "0")) ∧
    (∀ e, extrair_tipo_operacao e = extrair_tipo_operacao_simples e) ∧
    extrair_tipo_operacao none = "ENTRADA" ∧
    extrair_tipo_operacao (some none) = "ENTRADA" ∧
    extrair_tipo_operacao (some (some (""))) = "ENTRADA" := by
  refine ⟨?_, fun e => rfl, by decide, by decide, by decide⟩
  intro tpnf
  have hES : ("ENTRADA" : String) ≠ "SAIDA" := by decide
  constructor
  · simp only [tipo_operacao_de_tpnf]
    split_ifs with h
    · simp only [beq_iff_eq] at h
      simp [h]
    · simp only [beq_iff_eq] at h
      simp [h, hES.symm]
  · simp only [tipo_operacao_de_tpnf]
    split_ifs with h
    · simp only [beq_iff_eq] at h
      simp [h, hES]
    · simp only [beq_iff_eq] at h
      simp [h]

/-- C10: every completed run reports totals equal to the lengths of the
three output lists, and confirmed + suggestions + unmatched equals the
number of input invoices. -/
theorem c10_totais_consistentes
    (oracle : NFe → List Transacao → Option ParsedResult)
    (nfes : List NFe) (transacoes : List Transacao) (r : RunResult)
    (h : fazer_matching_com_llm oracle nfes transacoes = Except.ok r) :
    r.total_matches = r.matches_confirmados.length ∧
    r.total_sugestoes = r.sugestoes.length ∧
    r.total_sem_match = r.sem_match.length ∧
    r.total_nfes = nfes.length ∧
    r.total_matches + r.total_sugestoes + r.total_sem_match = r.total_nfes := by
  rw [fazer_matching_com_llm] at h
  cases hml : matching_loop oracle transacoes nfes [] [] [] [] with
  | error e =>
    rw [hml] at h
    simp [Except.map] at h
  | ok out =>
    obtain ⟨A, B, C⟩ := out
    rw [hml] at h
    simp only [Except.map, Except.ok.injEq] at h
    have hlen := matching_loop_len oracle transacoes nfes [] [] [] [] A B C hml
    simp only [List.length_nil] at hlen
    rw [← h]
    refine ⟨rfl, rfl, rfl, rfl, ?_⟩
    dsimp only
    omega

/-- C10 witness: the totals theorem at a concrete two-invoice run. -/
theorem c10_totais_witness :
    rC10.total_matches = rC10.matches_confirmados.length ∧
    rC10.total_sugestoes = rC10.sugestoes.length ∧
    rC10.total_sem_match = rC10.sem_match.length ∧
    rC10.total_nfes = ([nfeC1, nfeC10] : List NFe).length ∧
    rC10.total_matches + rC10.total_sugestoes + rC10.total_sem_match = rC10.total_nfes :=
  c10_totais_consistentes oracle75 [nfeC1, nfeC10] [tC1] rC10 (by rfl)
